import Mathlib

/-!
Verification of `AddressableStripLedEffects` (src/LED/LED.py).

The Python class `LED` drives a WS281x LED strip through the `rpi_ws281x`
driver.  We embed the driver-facing state shallowly:

* an `RGBW` record is the quadruple stored by `strip.setPixelColor(n, RGBW(r,g,b,w))`;
* a `Strip` carries the mutable pixel buffer (`pixels`) and the buffer most
  recently flushed to the hardware by `strip.show()` (`shown`);
* `strip.getPixelColor(0)` returns the packed integer of the stored pixel
  (`rpi_ws281x` stores pixels as packed `(w<<24)|(r<<16)|(g<<8)|b` integers).

Python integer arithmetic notes used throughout:

* for every Python int `x`, `x >> k` is floor division by `2^k` and
  `x & 0xFF` is `x mod 256` with a result in `[0, 256)`; both agree with
  Lean's `Int.ediv` / `Int.emod` for a positive divisor (two's complement);
* `int(e)` truncates a float toward zero; every place the code applies it the
  operand is nonnegative, so truncation is the floor.  Python evaluates the
  scaling expressions in double precision; we model them as exact rational
  arithmetic followed by the floor, which coincides at the 8-bit operand
  ranges these effects use.
-/

namespace AddrLED

/-- The quadruple handed to the driver by `RGBW(red, green, blue, white)`. -/
structure RGBW where
  red : Int
  green : Int
  blue : Int
  white : Int
deriving DecidableEq

/-- Packed integer representation used by the driver's pixel store:
`(w << 24) | (r << 16) | (g << 8) | b`.  For the in-range components produced
by the write paths the bit fields are disjoint, so the bitwise or is the sum. -/
def RGBW.pack (c : RGBW) : Int :=
  c.white * 16777216 + c.red * 65536 + c.green * 256 + c.blue

/-- Driver-side state: the pixel buffer plus the buffer last flushed by
`show()`. -/
structure Strip where
  pixels : List RGBW
  shown : List RGBW
deriving DecidableEq

/-- `strip.numPixels()`. -/
def Strip.numPixels (s : Strip) : Nat := s.pixels.length

/-- `strip.setPixelColor(n, c)`: in-place update of the buffer. -/
def Strip.setPixelColor (s : Strip) (n : Nat) (c : RGBW) : Strip :=
  { s with pixels := s.pixels.set n c }

/-- `strip.getPixelColor(n)`: the packed integer of the stored pixel. -/
def Strip.getPixelColor (s : Strip) (n : Nat) : Int :=
  (s.pixels.getD n ⟨0, 0, 0, 0⟩).pack

/-- `strip.show()`: flush the buffer to the hardware. -/
def Strip.showStrip (s : Strip) : Strip :=
  { s with shown := s.pixels }

/-- The `Color` enumeration of `LED.py`. -/
inductive Color where
  | RED | GREEN | BLUE | YELLOW | PURPLE | TURQUOISE | ORANGE | WHITE
deriving DecidableEq

/-- `Color.value`: the RGB tuple of each enumeration member. -/
def Color.value : Color → Int × Int × Int
  | .RED => (255, 0, 0)
  | .GREEN => (0, 255, 0)
  | .BLUE => (0, 0, 255)
  | .YELLOW => (255, 255, 0)
  | .PURPLE => (160, 32, 240)
  | .TURQUOISE => (48, 213, 200)
  | .ORANGE => (255, 120, 0)
  | .WHITE => (255, 255, 255)

/-- The "Checking" block of `setLedColor`, applied to one channel:
`if v < 0: v = 0 elif v > 255: v = 255`. -/
def clampChannel (v : Int) : Int :=
  if v < 0 then 0 else if v > 255 then 255 else v

/-- The `RGBW` value `setLedColor` hands to `setPixelColor`:
red, green and blue go through the checking block; white is passed as-is. -/
def setLedColorValue (red green blue white : Int) : RGBW :=
  ⟨clampChannel red, clampChannel green, clampChannel blue, white⟩

/-- `LED.setLedColor(n, red, green, blue, white=0)`. -/
def setLedColor (s : Strip) (n : Nat) (red green blue white : Int) : Strip :=
  s.setPixelColor n (setLedColorValue red green blue white)

/-- `LED.getRgbFromColor(color)`: `r = (color >> 16) & 0xFF`,
`g = (color >> 8) & 0xFF`, `b = color & 0xFF`.  On arbitrary Python ints the
arithmetic shift is floor division by the power of two and the mask is the
nonnegative remainder mod 256, i.e. `Int.ediv` / `Int.emod`. -/
def getRgbFromColor (color : Int) : Int × Int × Int :=
  (color / 65536 % 256, color / 256 % 256, color % 256)

/-- Whether an `RGBW` value has all four components inside `[0, 255]`. -/
def RGBW.inRange (c : RGBW) : Bool :=
  0 ≤ c.red && c.red ≤ 255 && 0 ≤ c.green && c.green ≤ 255 &&
    0 ≤ c.blue && c.blue ≤ 255 && 0 ≤ c.white && c.white ≤ 255

/-- One frame of the shared write pattern
`for j in range(self.strip.numPixels()): self.setLedColor(j, r, g, b)`
followed by `self.strip.show()` (and an inter-frame sleep, irrelevant to the
buffer).  `turnOn`, `transition` and `turnOff` all emit frames of this shape. -/
def writeFrame (s : Strip) (r g b : Int) : Strip :=
  ((List.range s.numPixels).foldl (fun acc j => setLedColor acc j r g b 0) s).showStrip

/-- Python's `range(0, stop, step)` for a positive `step`: the multiples of
`step` strictly below `stop` (empty when `step = 0`, where Python would
raise). -/
def pyRange (stop step : Nat) : List Nat :=
  (List.range ((stop + step - 1) / step)).map (fun k => k * step)

/-- `int(c * (i / brightness))` of `turnOn`: the operand is nonnegative in
every use, so float truncation is the floor of the exact ratio. -/
def scaleChannel (c : Int) (i brightness : Nat) : Int :=
  c * (i : Int) / (brightness : Int)

/-- `LED.turnOn(color, shineSpeed)` with the configured `self.brightness`:
`for i in range(0, brightness, shineSpeed)` emit a frame of the target color
scaled by `i / brightness`. -/
def turnOn (s : Strip) (color : Color) (shineSpeed brightness : Nat) : Strip :=
  (pyRange brightness shineSpeed).foldl
    (fun acc i =>
      writeFrame acc (scaleChannel color.value.1 i brightness)
        (scaleChannel color.value.2.1 i brightness)
        (scaleChannel color.value.2.2 i brightness)) s

/-- `int(c + (i * (tc - c) / brightness))` of `transition`: `c` is an
integer, the sum is nonnegative for the 8-bit colors fed to it, and Python's
true division floors under `int` there, so this is `c` plus the floored
ratio. -/
def lerpChannel (c tc : Int) (i brightness : Nat) : Int :=
  c + (i : Int) * (tc - c) / (brightness : Int)

/-- `LED.transition(startColor, endColor, effectSpeed)` with the configured
`self.brightness`: one frame per `i in range(0, brightness, effectSpeed)`,
each writing the per-channel linear blend to every pixel. -/
def transition (s : Strip) (startColor endColor : Int × Int × Int)
    (effectSpeed brightness : Nat) : Strip :=
  (pyRange brightness effectSpeed).foldl
    (fun acc i =>
      writeFrame acc (lerpChannel startColor.1 endColor.1 i brightness)
        (lerpChannel startColor.2.1 endColor.2.1 i brightness)
        (lerpChannel startColor.2.2 endColor.2.2 i brightness)) s

/-- One pass of `transitionEffect`'s `while True` body:
`for i in range(len(colors))`, transition from `colors[i]` to `colors[0]`
when `i + 1 >= len(colors)`, else to `colors[i + 1]`. -/
def transitionEffectPass (s : Strip) (colors : List (Int × Int × Int))
    (effectSpeed brightness : Nat) : Strip :=
  (List.range colors.length).foldl
    (fun acc i =>
      if i + 1 ≥ colors.length then
        transition acc (colors.getD i (0, 0, 0)) (colors.getD 0 (0, 0, 0))
          effectSpeed brightness
      else
        transition acc (colors.getD i (0, 0, 0)) (colors.getD (i + 1) (0, 0, 0))
          effectSpeed brightness) s

/-- `LED.transitionEffect`'s `while True` loop, fuel-indexed: the loop body
has no break or return, so a normal exit (`some`) could only come from the
loop condition becoming false — which `True` never does. -/
def transitionEffectRun (colors : List (Int × Int × Int))
    (effectSpeed brightness : Nat) (s : Strip) : Nat → Option Strip
  | 0 => none
  | fuel + 1 =>
      transitionEffectRun colors effectSpeed brightness
        (transitionEffectPass s colors effectSpeed brightness) fuel

/-- The strip state a cancellation arriving after `k` complete passes of
`transitionEffect` hands to the caller: the method body has no exception
handler, so the interrupt propagates and the buffer is delivered as-is. -/
def transitionEffectCancelState (colors : List (Int × Int × Int))
    (effectSpeed brightness : Nat) (s : Strip) : Nat → Strip
  | 0 => s
  | k + 1 =>
      transitionEffectCancelState colors effectSpeed brightness
        (transitionEffectPass s colors effectSpeed brightness) k

/-- `turnOff`'s loop condition `while (r > 0 or g > 0 or b > 0)`. -/
def turnOffGuard (r g b : Int) : Bool :=
  decide (0 < r) || decide (0 < g) || decide (0 < b)

/-- `turnOff`'s fade loop, fuel-indexed: while the guard holds, subtract
`fadeSpeed` from each channel, then write the (clamped) triple to every
pixel and render.  `none` means the fuel ran out before the loop exited. -/
def turnOffLoop (fadeSpeed r g b : Int) (s : Strip) : Nat → Option Strip
  | 0 => if turnOffGuard r g b then none else some s
  | fuel + 1 =>
      if turnOffGuard r g b then
        turnOffLoop fadeSpeed (r - fadeSpeed) (g - fadeSpeed) (b - fadeSpeed)
          (writeFrame s (r - fadeSpeed) (g - fadeSpeed) (b - fadeSpeed)) fuel
      else some s

/-- The value `strip.getPixelColor(0)` hands back, as `turnOff` sees it:
either a Python int or some non-integer object (the case its
`isinstance(color, int)` check rejects). -/
inductive PyVal where
  | int (value : Int)
  | nonInt
deriving DecidableEq

/-- `LED.turnOff(fadeSpeed)` applied to a given read-back value: a non-int
read-back raises `ValueError("Color should be a 24-bit integer value")`
before anything is written (the error carries the untouched strip);
otherwise decompose the packed color and run the fade loop. -/
def turnOffRun (fadeSpeed : Int) (color : PyVal) (s : Strip) (fuel : Nat) :
    Except (String × Strip) (Option Strip) :=
  match color with
  | .nonInt => .error ("Color should be a 24-bit integer value", s)
  | .int c =>
      .ok (turnOffLoop fadeSpeed (getRgbFromColor c).1 (getRgbFromColor c).2.1
        (getRgbFromColor c).2.2 s fuel)

/-- The `except KeyboardInterrupt` handler of `colorLoop` (and of
`breathe`): `self.turnOff(fadeSpeed)`, which begins by reading pixel 0. -/
def colorLoopHandler (fadeSpeed : Int) (s : Strip) :
    Except (String × Strip) (Option Strip) :=
  turnOffRun fadeSpeed (.int (s.getPixelColor 0)) s 256

/-- The `except KeyboardInterrupt` handler of `flow` and of `chase`
(identical in both): `for i in range(numPixels): setLedColor(i, 0, 0, 0);
show()`. -/
def interruptClear (s : Strip) : Strip :=
  (List.range s.numPixels).foldl
    (fun acc i => (setLedColor acc i 0 0 0 0).showStrip) s

/-- `chase`'s expansion of `colorOrder`: `for color in colorOrder: for i in
range(repeat): order.append(color.value)`. -/
def buildOrder (colorOrder : List Color) (rep : Nat) :
    List (Int × Int × Int) :=
  colorOrder.foldl (fun acc c => acc ++ List.replicate rep c.value) []

/-- `chase`'s in-place shift `for k in range(len(order) - 1, 0, -1):
order[k] = order[k - 1]`, entered with the start index `len(order) - 1`. -/
def chaseShift (order : List (Int × Int × Int)) : Nat → List (Int × Int × Int)
  | 0 => order
  | k + 1 => chaseShift (order.set (k + 1) (order.getD k (0, 0, 0))) k

/-- `chase`'s end-of-sweep rotation: when `len(order) > 1`, remember
`order[-1]`, shift everything right, and put the remembered color at the
front; otherwise leave `order` alone. -/
def chaseRotate (order : List (Int × Int × Int)) : List (Int × Int × Int) :=
  if order.length > 1 then
    (chaseShift order (order.length - 1)).set 0 (order.getLastD (0, 0, 0))
  else order

/-- `chase`'s inner loop for one pixel `i`:
`for j in range(len(order)): r, g, b = order[i % (j+1)]; setLedColor(i, r, g, b);
show()`. -/
def chaseInner (s : Strip) (order : List (Int × Int × Int)) (i : Nat) : Strip :=
  (List.range order.length).foldl
    (fun acc j =>
      (setLedColor acc i (order.getD (i % (j + 1)) (0, 0, 0)).1
        (order.getD (i % (j + 1)) (0, 0, 0)).2.1
        (order.getD (i % (j + 1)) (0, 0, 0)).2.2 0).showStrip) s

/-- One full sweep of `chase`'s `while True` body over the pixels (the part
before the rotation): `for i in range(self.strip.numPixels())` run the inner
loop. -/
def chaseSweep (s : Strip) (order : List (Int × Int × Int)) : Strip :=
  (List.range s.numPixels).foldl (fun acc i => chaseInner acc order i) s

/-- The value pixel `i` settles at during a `chase` sweep: the last inner
write, `order[i % len(order)]`, after `setLedColor`'s channel checking. -/
def chaseTarget (order : List (Int × Int × Int)) (i : Nat) : RGBW :=
  setLedColorValue (order.getD (i % order.length) (0, 0, 0)).1
    (order.getD (i % order.length) (0, 0, 0)).2.1
    (order.getD (i % order.length) (0, 0, 0)).2.2 0

lemma clampChannel_mem (v : Int) : 0 ≤ clampChannel v ∧ clampChannel v ≤ 255 := by
  unfold clampChannel
  split <;> [skip; split] <;> omega

lemma clampChannel_nonpos {v : Int} (h : v ≤ 0) : clampChannel v = 0 := by
  unfold clampChannel
  split <;> [rfl; split <;> omega]

lemma foldl_set_range'_cons {α : Type} (v : α) :
    ∀ (k a : Nat) (x : α) (t : List α),
      (List.range' (a + 1) k).foldl (fun acc i => acc.set i v) (x :: t) =
        x :: (List.range' a k).foldl (fun acc i => acc.set i v) t := by
  intro k
  induction k with
  | zero => intro a x t; rfl
  | succ k ih =>
      intro a x t
      rw [List.range'_succ, List.range'_succ]
      simp only [List.foldl_cons, List.set_cons_succ]
      exact ih (a + 1) x (t.set a v)

lemma foldl_set_replicate {α : Type} (v : α) :
    ∀ (l : List α),
      (List.range l.length).foldl (fun acc i => acc.set i v) l =
        List.replicate l.length v := by
  intro l
  induction l with
  | nil => rfl
  | cons x t ih =>
      rw [List.length_cons, List.range_eq_range', List.range'_succ]
      simp only [List.foldl_cons, List.set_cons_zero]
      rw [foldl_set_range'_cons v t.length 0 v t, ← List.range_eq_range', ih]
      rfl

lemma foldl_setLedColor (r g b w : Int) :
    ∀ (is : List Nat) (s : Strip),
      (is.foldl (fun acc i => setLedColor acc i r g b w) s).pixels =
          is.foldl (fun l i => l.set i (setLedColorValue r g b w)) s.pixels ∧
        (is.foldl (fun acc i => setLedColor acc i r g b w) s).shown = s.shown := by
  intro is
  induction is with
  | nil => intro s; exact ⟨rfl, rfl⟩
  | cons i t ih =>
      intro s
      simpa using ih (setLedColor s i r g b w)

lemma writeFrame_spec (s : Strip) (r g b : Int) :
    (writeFrame s r g b).pixels =
        List.replicate s.numPixels (setLedColorValue r g b 0) ∧
      (writeFrame s r g b).shown = (writeFrame s r g b).pixels := by
  have h := foldl_setLedColor r g b 0 (List.range s.numPixels) s
  have hp : (writeFrame s r g b).pixels =
      List.replicate s.numPixels (setLedColorValue r g b 0) := by
    show ((List.range s.numPixels).foldl (fun acc j => setLedColor acc j r g b 0) s).pixels
      = _
    rw [h.1]
    exact foldl_set_replicate (setLedColorValue r g b 0) s.pixels
  exact ⟨hp, by simp [writeFrame, Strip.showStrip]⟩

lemma writeFrame_numPixels (s : Strip) (r g b : Int) :
    (writeFrame s r g b).numPixels = s.numPixels := by
  show (writeFrame s r g b).pixels.length = _
  rw [(writeFrame_spec s r g b).1, List.length_replicate]

lemma getLastD_irrel {α : Type} (t : List α) (h : t ≠ []) (d1 d2 : α) :
    t.getLastD d1 = t.getLastD d2 := by
  cases t with
  | nil => exact absurd rfl h
  | cons x t' => rfl

lemma foldl_writeFrame_last (f1 f2 f3 : Nat → Int) :
    ∀ (l : List Nat) (s : Strip), l ≠ [] →
      ((l.foldl (fun acc i => writeFrame acc (f1 i) (f2 i) (f3 i)) s).pixels =
          List.replicate s.numPixels
            (setLedColorValue (f1 (l.getLastD 0)) (f2 (l.getLastD 0))
              (f3 (l.getLastD 0)) 0)) ∧
        ((l.foldl (fun acc i => writeFrame acc (f1 i) (f2 i) (f3 i)) s).shown =
          (l.foldl (fun acc i => writeFrame acc (f1 i) (f2 i) (f3 i)) s).pixels) := by
  intro l
  induction l with
  | nil => intro s h; exact absurd rfl h
  | cons i t ih =>
      intro s _
      cases t with
      | nil =>
          simpa using writeFrame_spec s (f1 i) (f2 i) (f3 i)
      | cons j t' =>
          have hne : (j :: t') ≠ [] := by simp
          have h := ih (writeFrame s (f1 i) (f2 i) (f3 i)) hne
          have hlast : (i :: j :: t').getLastD 0 = (j :: t').getLastD 0 := by
            show (j :: t').getLastD i = (j :: t').getLastD 0
            exact getLastD_irrel _ hne i 0
          simp only [List.foldl_cons] at h ⊢
          rw [hlast]
          rw [writeFrame_numPixels] at h
          exact h

lemma pyRange_length (stop step : Nat) :
    (pyRange stop step).length = (stop + step - 1) / step := by
  simp [pyRange]

lemma pyRange_ne_nil {stop step : Nat} (h1 : 1 ≤ step) (h2 : 1 ≤ stop) :
    pyRange stop step ≠ [] := by
  have hq : 1 ≤ (stop + step - 1) / step :=
    (Nat.one_le_div_iff h1).2 (by omega)
  intro h
  have := pyRange_length stop step
  rw [h] at this
  simp at this
  omega

lemma pyRange_getLastD {stop step : Nat} (h1 : 1 ≤ step) (h2 : 1 ≤ stop) :
    (pyRange stop step).getLastD 0 = ((stop + step - 1) / step - 1) * step := by
  have hq : 1 ≤ (stop + step - 1) / step :=
    (Nat.one_le_div_iff h1).2 (by omega)
  obtain ⟨m, hm⟩ : ∃ m, (stop + step - 1) / step = m + 1 :=
    ⟨(stop + step - 1) / step - 1, by omega⟩
  unfold pyRange
  rw [hm, List.range_succ, List.map_append]
  simp [List.getLastD_concat]

lemma pyRange_last_lt {stop step : Nat} (h1 : 1 ≤ step) (h2 : 1 ≤ stop) :
    ((stop + step - 1) / step - 1) * step < stop := by
  have hq : 1 ≤ (stop + step - 1) / step :=
    (Nat.one_le_div_iff h1).2 (by omega)
  have hX : ((stop + step - 1) / step) * step ≤ stop + step - 1 :=
    Nat.div_mul_le_self _ _
  have hsub : ((stop + step - 1) / step - 1) * step =
      ((stop + step - 1) / step) * step - step := by
    rw [Nat.sub_mul, Nat.one_mul]
  omega

/-- **C4** (counterexample): with the default configuration
(`brightness = 120`), `turnOn(Color.RED, shineSpeed=5)` never writes the full
target color: the final frame leaves the pixel at `(244, 0, 0, 0)`, not
`(255, 0, 0, 0)`, because the brightness loop stops strictly below the
configured maximum. -/
theorem turnOn_last_frame_not_full :
    (turnOn ⟨[⟨0, 0, 0, 0⟩], []⟩ Color.RED 5 120).pixels.getD 0 ⟨0, 0, 0, 0⟩ =
        ⟨244, 0, 0, 0⟩ ∧
      ¬ ((turnOn ⟨[⟨0, 0, 0, 0⟩], []⟩ Color.RED 5 120).pixels.getD 0 ⟨0, 0, 0, 0⟩ =
        ⟨255, 0, 0, 0⟩) := by
  decide

/-- **C4** (amended): for `shineSpeed ≥ 1` and `brightness ≥ 1`, `turnOn`
terminates after `⌈brightness / shineSpeed⌉` frames; every frame writes the
target color scaled by `i / brightness` (truncated, then clamped) to every
pixel, and the final frame uses the largest multiple of `shineSpeed`
strictly below `brightness` — so the configured maximum itself is never used
and the full target color need not be written. -/
theorem turnOn_final_frame (color : Color) (shineSpeed brightness : Nat)
    (s : Strip) (h1 : 1 ≤ shineSpeed) (h2 : 1 ≤ brightness) :
    (pyRange brightness shineSpeed).length =
        (brightness + shineSpeed - 1) / shineSpeed ∧
      ((brightness + shineSpeed - 1) / shineSpeed - 1) * shineSpeed <
        brightness ∧
      (turnOn s color shineSpeed brightness).pixels =
        List.replicate s.numPixels
          (setLedColorValue
            (scaleChannel color.value.1
              (((brightness + shineSpeed - 1) / shineSpeed - 1) * shineSpeed)
              brightness)
            (scaleChannel color.value.2.1
              (((brightness + shineSpeed - 1) / shineSpeed - 1) * shineSpeed)
              brightness)
            (scaleChannel color.value.2.2
              (((brightness + shineSpeed - 1) / shineSpeed - 1) * shineSpeed)
              brightness)
            0) := by
  refine ⟨pyRange_length _ _, pyRange_last_lt h1 h2, ?_⟩
  have h := (foldl_writeFrame_last
    (fun i => scaleChannel color.value.1 i brightness)
    (fun i => scaleChannel color.value.2.1 i brightness)
    (fun i => scaleChannel color.value.2.2 i brightness)
    (pyRange brightness shineSpeed) s (pyRange_ne_nil h1 h2)).1
  rw [pyRange_getLastD h1 h2] at h
  exact h

/-- Closed instance discharging the hypotheses of `turnOn_final_frame`. -/
theorem turnOn_final_frame_witness :
    1 ≤ 5 ∧ 1 ≤ 120 ∧
      ((pyRange 120 5).length = (120 + 5 - 1) / 5 ∧
        ((120 + 5 - 1) / 5 - 1) * 5 < 120 ∧
        (turnOn ⟨[⟨0, 0, 0, 0⟩, ⟨0, 0, 0, 0⟩], []⟩ Color.RED 5 120).pixels =
          List.replicate
            (Strip.numPixels ⟨[⟨0, 0, 0, 0⟩, ⟨0, 0, 0, 0⟩], []⟩)
            (setLedColorValue
              (scaleChannel (Color.value Color.RED).1 (((120 + 5 - 1) / 5 - 1) * 5) 120)
              (scaleChannel (Color.value Color.RED).2.1 (((120 + 5 - 1) / 5 - 1) * 5) 120)
              (scaleChannel (Color.value Color.RED).2.2 (((120 + 5 - 1) / 5 - 1) * 5) 120)
              0)) :=
  ⟨by decide, by decide,
    turnOn_final_frame Color.RED 5 120 ⟨[⟨0, 0, 0, 0⟩, ⟨0, 0, 0, 0⟩], []⟩
      (by decide) (by decide)⟩

lemma getRgbFromColor_bounds (c : Int) :
    (0 ≤ (getRgbFromColor c).1 ∧ (getRgbFromColor c).1 ≤ 255) ∧
      (0 ≤ (getRgbFromColor c).2.1 ∧ (getRgbFromColor c).2.1 ≤ 255) ∧
      (0 ≤ (getRgbFromColor c).2.2 ∧ (getRgbFromColor c).2.2 ≤ 255) := by
  refine ⟨⟨?_, ?_⟩, ⟨?_, ?_⟩, ⟨?_, ?_⟩⟩ <;> simp only [getRgbFromColor]
  · exact Int.emod_nonneg _ (by decide)
  · exact Int.le_of_lt_add_one (Int.emod_lt_of_pos _ (by decide))
  · exact Int.emod_nonneg _ (by decide)
  · exact Int.le_of_lt_add_one (Int.emod_lt_of_pos _ (by decide))
  · exact Int.emod_nonneg _ (by decide)
  · exact Int.le_of_lt_add_one (Int.emod_lt_of_pos _ (by decide))

/-- **C9**: `getRgbFromColor` extracts the three 8-bit channels by shift and
mask; each returned component lies in `[0, 255]`, and on `0xFF8000` the
result is `(255, 128, 0)`. -/
theorem getRgbFromColor_spec (c : Int) :
    (0 ≤ (getRgbFromColor c).1 ∧ (getRgbFromColor c).1 ≤ 255) ∧
    (0 ≤ (getRgbFromColor c).2.1 ∧ (getRgbFromColor c).2.1 ≤ 255) ∧
    (0 ≤ (getRgbFromColor c).2.2 ∧ (getRgbFromColor c).2.2 ≤ 255) ∧
    getRgbFromColor 16744448 = (255, 128, 0) := by
  obtain ⟨h1, h2, h3⟩ := getRgbFromColor_bounds c
  exact ⟨h1, h2, h3, by decide⟩

lemma turnOffGuard_iff (r g b : Int) :
    turnOffGuard r g b = true ↔ (0 < r ∨ 0 < g ∨ 0 < b) := by
  simp only [turnOffGuard, Bool.or_eq_true, decide_eq_true_eq]
  tauto

lemma turnOffGuard_false_iff (r g b : Int) :
    turnOffGuard r g b = false ↔ (r ≤ 0 ∧ g ≤ 0 ∧ b ≤ 0) := by
  simp only [turnOffGuard, Bool.or_eq_false_iff, decide_eq_false_iff_not, Int.not_lt]
  tauto

lemma turnOffLoop_guard_false {r g b : Int} (h : turnOffGuard r g b = false)
    (f : Int) (s : Strip) (fuel : Nat) :
    turnOffLoop f r g b s fuel = some s := by
  cases fuel <;> simp [turnOffLoop, h]

lemma turnOffLoop_clears :
    ∀ (fuel : Nat) (f r g b : Int) (s : Strip), 1 ≤ f →
      r ≤ (fuel : Int) → g ≤ (fuel : Int) → b ≤ (fuel : Int) →
      turnOffGuard r g b = true →
      ∃ s', turnOffLoop f r g b s fuel = some s' ∧
        s'.pixels = List.replicate s.numPixels ⟨0, 0, 0, 0⟩ ∧
        s'.shown = s'.pixels := by
  intro fuel
  induction fuel with
  | zero =>
      intro f r g b s hf hr hg hb hguard
      rw [turnOffGuard_iff] at hguard
      simp only [Nat.cast_zero] at hr hg hb
      omega
  | succ n ih =>
      intro f r g b s hf hr hg hb hguard
      cases hguard2 : turnOffGuard (r - f) (g - f) (b - f) with
      | true =>
          obtain ⟨s', h1, h2, h3⟩ := ih f (r - f) (g - f) (b - f)
            (writeFrame s (r - f) (g - f) (b - f)) hf
            (by push_cast at hr ⊢; omega) (by push_cast at hg ⊢; omega)
            (by push_cast at hb ⊢; omega) hguard2
          refine ⟨s', ?_, ?_, h3⟩
          · show turnOffLoop f r g b s (n + 1) = some s'
            simp only [turnOffLoop, hguard, if_true]
            exact h1
          · rw [h2, writeFrame_numPixels]
      | false =>
          obtain ⟨hr', hg', hb'⟩ := (turnOffGuard_false_iff _ _ _).1 hguard2
          refine ⟨writeFrame s (r - f) (g - f) (b - f), ?_, ?_, ?_⟩
          · show turnOffLoop f r g b s (n + 1) = _
            simp only [turnOffLoop, hguard, if_true]
            exact turnOffLoop_guard_false hguard2 f _ n
          · have hv : setLedColorValue (r - f) (g - f) (b - f) 0 =
                (⟨0, 0, 0, 0⟩ : RGBW) := by
              unfold setLedColorValue
              rw [clampChannel_nonpos hr', clampChannel_nonpos hg',
                clampChannel_nonpos hb']
            rw [(writeFrame_spec s _ _ _).1, hv]
          · exact (writeFrame_spec s _ _ _).2

lemma turnOffLoop_isSome {f r g b : Int} (s : Strip) (fuel : Nat)
    (hf : 1 ≤ f) (hr : r ≤ (fuel : Int)) (hg : g ≤ (fuel : Int))
    (hb : b ≤ (fuel : Int)) :
    (turnOffLoop f r g b s fuel).isSome = true := by
  cases hguard : turnOffGuard r g b with
  | true =>
      obtain ⟨s', h1, -, -⟩ := turnOffLoop_clears fuel f r g b s hf hr hg hb hguard
      rw [h1]; rfl
  | false =>
      rw [turnOffLoop_guard_false hguard f s fuel]; rfl

/-- **C3**: with `fadeSpeed ≥ 1` and `(r, g, b)` decomposed from pixel 0's
packed color, `turnOff`'s loop (i) terminates within finite fuel,
(ii) continues exactly when at least one channel is strictly positive (an OR
of `> 0` checks), (iii) on a continuing step subtracts `fadeSpeed` from all
three channels and recurses on the frame written with them, and (iv) that
frame writes the clamped triple to every pixel. -/
theorem turnOff_loop_spec (c f : Int) (s : Strip) (hf : 1 ≤ f) :
    ((turnOffLoop f (getRgbFromColor c).1 (getRgbFromColor c).2.1
        (getRgbFromColor c).2.2 s 256).isSome = true) ∧
      (turnOffGuard (getRgbFromColor c).1 (getRgbFromColor c).2.1
          (getRgbFromColor c).2.2 = true ↔
        (0 < (getRgbFromColor c).1 ∨ 0 < (getRgbFromColor c).2.1 ∨
          0 < (getRgbFromColor c).2.2)) ∧
      (turnOffLoop f (getRgbFromColor c).1 (getRgbFromColor c).2.1
          (getRgbFromColor c).2.2 s 256 =
        if turnOffGuard (getRgbFromColor c).1 (getRgbFromColor c).2.1
            (getRgbFromColor c).2.2 then
          turnOffLoop f ((getRgbFromColor c).1 - f) ((getRgbFromColor c).2.1 - f)
            ((getRgbFromColor c).2.2 - f)
            (writeFrame s ((getRgbFromColor c).1 - f) ((getRgbFromColor c).2.1 - f)
              ((getRgbFromColor c).2.2 - f)) 255
        else some s) ∧
      ((writeFrame s ((getRgbFromColor c).1 - f) ((getRgbFromColor c).2.1 - f)
          ((getRgbFromColor c).2.2 - f)).pixels =
        List.replicate s.numPixels
          (setLedColorValue ((getRgbFromColor c).1 - f)
            ((getRgbFromColor c).2.1 - f) ((getRgbFromColor c).2.2 - f) 0)) := by
  obtain ⟨⟨h1a, h1b⟩, ⟨h2a, h2b⟩, ⟨h3a, h3b⟩⟩ := getRgbFromColor_bounds c
  refine ⟨?_, turnOffGuard_iff _ _ _, rfl, (writeFrame_spec s _ _ _).1⟩
  exact turnOffLoop_isSome s 256 hf (by push_cast; omega) (by push_cast; omega)
    (by push_cast; omega)

/-- Closed instance discharging the hypothesis of `turnOff_loop_spec` at
`c = 0xFF8000`, `fadeSpeed = 7`, on a one-pixel strip. -/
theorem turnOff_loop_spec_witness :
    1 ≤ (7 : Int) ∧
      (((turnOffLoop 7 (getRgbFromColor 16744448).1 (getRgbFromColor 16744448).2.1
          (getRgbFromColor 16744448).2.2 ⟨[⟨1, 2, 3, 0⟩], []⟩ 256).isSome = true) ∧
        (turnOffGuard (getRgbFromColor 16744448).1 (getRgbFromColor 16744448).2.1
            (getRgbFromColor 16744448).2.2 = true ↔
          (0 < (getRgbFromColor 16744448).1 ∨ 0 < (getRgbFromColor 16744448).2.1 ∨
            0 < (getRgbFromColor 16744448).2.2)) ∧
        (turnOffLoop 7 (getRgbFromColor 16744448).1 (getRgbFromColor 16744448).2.1
            (getRgbFromColor 16744448).2.2 ⟨[⟨1, 2, 3, 0⟩], []⟩ 256 =
          if turnOffGuard (getRgbFromColor 16744448).1 (getRgbFromColor 16744448).2.1
              (getRgbFromColor 16744448).2.2 then
            turnOffLoop 7 ((getRgbFromColor 16744448).1 - 7)
              ((getRgbFromColor 16744448).2.1 - 7) ((getRgbFromColor 16744448).2.2 - 7)
              (writeFrame ⟨[⟨1, 2, 3, 0⟩], []⟩ ((getRgbFromColor 16744448).1 - 7)
                ((getRgbFromColor 16744448).2.1 - 7)
                ((getRgbFromColor 16744448).2.2 - 7)) 255
          else some ⟨[⟨1, 2, 3, 0⟩], []⟩) ∧
        ((writeFrame ⟨[⟨1, 2, 3, 0⟩], []⟩ ((getRgbFromColor 16744448).1 - 7)
            ((getRgbFromColor 16744448).2.1 - 7)
            ((getRgbFromColor 16744448).2.2 - 7)).pixels =
          List.replicate (Strip.numPixels ⟨[⟨1, 2, 3, 0⟩], []⟩)
            (setLedColorValue ((getRgbFromColor 16744448).1 - 7)
              ((getRgbFromColor 16744448).2.1 - 7)
              ((getRgbFromColor 16744448).2.2 - 7) 0))) :=
  ⟨by decide, turnOff_loop_spec 16744448 7 ⟨[⟨1, 2, 3, 0⟩], []⟩ (by decide)⟩

/-- **C6**: `turnOff` raises the invalid-color-encoding `ValueError` exactly
when the value read back from pixel 0 is not an integer, and when it raises,
the error carries the input strip unchanged — the raise happens before any
pixel is written. -/
theorem turnOff_error_iff (f : Int) (v : PyVal) (s : Strip) (fuel : Nat) :
    ((∃ e, turnOffRun f v s fuel = .error e) ↔ v = .nonInt) ∧
      turnOffRun f .nonInt s fuel =
        .error ("Color should be a 24-bit integer value", s) := by
  constructor
  · cases v with
    | int c => simp [turnOffRun]
    | nonInt => simp [turnOffRun]
  · rfl

/-- **C1** (counterexample): `setLedColor` does not saturate the white
channel.  Writing white = 300 to a one-pixel strip stores an RGBW value whose
white component is 300, outside `[0, 255]`. -/
theorem setLedColor_white_not_clamped :
    ((setLedColor ⟨[⟨0, 0, 0, 0⟩], []⟩ 0 1 2 3 300).pixels.getD 0
        ⟨0, 0, 0, 0⟩).white = 300 ∧
      RGBW.inRange ((setLedColor ⟨[⟨0, 0, 0, 0⟩], []⟩ 0 1 2 3 300).pixels.getD 0
        ⟨0, 0, 0, 0⟩) = false := by
  decide

/-- **C1** (amended): `setLedColor` saturates the red, green and blue
channels into `[0, 255]` before the value is written, but passes the white
channel through unchanged; so the written value has its three color
components in range and its white component equal to the argument. -/
theorem setLedColor_clamps_rgb (red green blue white : Int) :
    (0 ≤ (setLedColorValue red green blue white).red ∧
      (setLedColorValue red green blue white).red ≤ 255) ∧
    (0 ≤ (setLedColorValue red green blue white).green ∧
      (setLedColorValue red green blue white).green ≤ 255) ∧
    (0 ≤ (setLedColorValue red green blue white).blue ∧
      (setLedColorValue red green blue white).blue ≤ 255) ∧
    (setLedColorValue red green blue white).white = white := by
  exact ⟨clampChannel_mem red, clampChannel_mem green, clampChannel_mem blue, rfl⟩

/-- **C5**: with the default configuration (`brightness = 120`) and a pixel
buffer whose read-back returns the last value written, `turnOn(Color.RED,
shineSpeed=5)` followed immediately by `turnOff(fadeSpeed=7)` leaves every
pixel of the strip at `(0, 0, 0, 0)`. -/
theorem turnOn_then_turnOff_all_off (s : Strip) :
    ∃ s', turnOffRun 7 (.int ((turnOn s Color.RED 5 120).getPixelColor 0))
        (turnOn s Color.RED 5 120) 256 = .ok (some s') ∧
      s'.pixels = List.replicate s.numPixels ⟨0, 0, 0, 0⟩ := by
  have h115 : ((120 + 5 - 1) / 5 - 1) * 5 = 115 := by decide
  have hpix : (turnOn s Color.RED 5 120).pixels =
      List.replicate s.numPixels (⟨244, 0, 0, 0⟩ : RGBW) := by
    have h := (foldl_writeFrame_last
      (fun i => scaleChannel Color.RED.value.1 i 120)
      (fun i => scaleChannel Color.RED.value.2.1 i 120)
      (fun i => scaleChannel Color.RED.value.2.2 i 120)
      (pyRange 120 5) s (pyRange_ne_nil (by decide) (by decide))).1
    rw [pyRange_getLastD (by decide) (by decide), h115] at h
    have hval : setLedColorValue (scaleChannel Color.RED.value.1 115 120)
        (scaleChannel Color.RED.value.2.1 115 120)
        (scaleChannel Color.RED.value.2.2 115 120) 0 = ⟨244, 0, 0, 0⟩ := by
      decide
    rw [hval] at h
    exact h
  cases hn : s.numPixels with
  | zero =>
      have hc : (turnOn s Color.RED 5 120).getPixelColor 0 = 0 := by
        rw [Strip.getPixelColor, hpix, hn]
        decide
      refine ⟨turnOn s Color.RED 5 120, ?_, ?_⟩
      · rw [hc]
        show Except.ok (turnOffLoop 7 (getRgbFromColor 0).1 (getRgbFromColor 0).2.1
          (getRgbFromColor 0).2.2 _ 256) = _
        rw [turnOffLoop_guard_false (by decide)]
      · rw [hpix, hn]
        rfl
  | succ m =>
      have hc : (turnOn s Color.RED 5 120).getPixelColor 0 = 15990784 := by
        rw [Strip.getPixelColor, hpix, hn, List.replicate_succ, List.getD_cons_zero]
        decide
      obtain ⟨s', h1, h2, h3⟩ := turnOffLoop_clears 256 7 244 0 0
        (turnOn s Color.RED 5 120) (by decide) (by norm_num) (by norm_num)
        (by norm_num) (by decide)
      refine ⟨s', ?_, ?_⟩
      · rw [hc]
        show Except.ok (turnOffLoop 7 (getRgbFromColor 15990784).1
          (getRgbFromColor 15990784).2.1 (getRgbFromColor 15990784).2.2 _ 256) = _
        have hdec : getRgbFromColor 15990784 = (244, 0, 0) := by decide
        rw [hdec]
        rw [show ((244 : Int), (0 : Int), (0 : Int)).1 = 244 from rfl]
        rw [h1]
      · rw [h2]
        have : (turnOn s Color.RED 5 120).numPixels = s.numPixels := by
          show (turnOn s Color.RED 5 120).pixels.length = _
          rw [hpix, List.length_replicate]
        rw [this, hn]

lemma foldl_setShow (r g b w : Int) :
    ∀ (is : List Nat) (s : Strip),
      ((is.foldl (fun acc i => (setLedColor acc i r g b w).showStrip) s).pixels =
          is.foldl (fun l i => l.set i (setLedColorValue r g b w)) s.pixels) ∧
        (is ≠ [] →
          (is.foldl (fun acc i => (setLedColor acc i r g b w).showStrip) s).shown =
            (is.foldl (fun acc i => (setLedColor acc i r g b w).showStrip) s).pixels) := by
  intro is
  induction is with
  | nil => intro s; exact ⟨rfl, fun h => absurd rfl h⟩
  | cons i t ih =>
      intro s
      cases t with
      | nil => exact ⟨rfl, fun _ => rfl⟩
      | cons j t' =>
          have h := ih ((setLedColor s i r g b w).showStrip)
          refine ⟨?_, fun _ => h.2 (by simp)⟩
          simp only [List.foldl_cons] at h ⊢
          exact h.1

lemma interruptClear_spec (s : Strip) :
    (interruptClear s).pixels = List.replicate s.numPixels ⟨0, 0, 0, 0⟩ ∧
      (1 ≤ s.numPixels →
        (interruptClear s).shown = (interruptClear s).pixels) := by
  have h := foldl_setShow 0 0 0 0 (List.range s.numPixels) s
  constructor
  · show ((List.range s.numPixels).foldl
      (fun acc i => (setLedColor acc i 0 0 0 0).showStrip) s).pixels = _
    rw [h.1]
    have hv : setLedColorValue 0 0 0 0 = (⟨0, 0, 0, 0⟩ : RGBW) := by decide
    rw [hv]
    exact foldl_set_replicate _ s.pixels
  · intro hn
    exact h.2 (by
      intro hcon
      rw [List.range_eq_nil] at hcon
      omega)

/-- **C2** (counterexample): the claim fails for `colorLoop`.  Start
`colorLoop` (default `fadeSpeed = 7`) on a strip still showing `(9,0,0,0)`
everywhere; its first loop action — frame `i = 0` of `turnOn` — writes
scale-zero black to pixel 0.  A keyboard interrupt arriving right after that
write reaches the handler with pixel 0 black and pixel 1 still `(9,0,0,0)`;
the handler (`turnOff(7)`) reads back `0`, its fade loop never runs, and the
strip is returned with pixel 1 not `(0, 0, 0, 0)`. -/
theorem colorLoop_cancel_not_cleared :
    setLedColor ⟨[⟨9, 0, 0, 0⟩, ⟨9, 0, 0, 0⟩], []⟩ 0 0 0 0 0 =
        (⟨[⟨0, 0, 0, 0⟩, ⟨9, 0, 0, 0⟩], []⟩ : Strip) ∧
      colorLoopHandler 7 ⟨[⟨0, 0, 0, 0⟩, ⟨9, 0, 0, 0⟩], []⟩ =
        .ok (some ⟨[⟨0, 0, 0, 0⟩, ⟨9, 0, 0, 0⟩], []⟩) ∧
      (⟨[⟨0, 0, 0, 0⟩, ⟨9, 0, 0, 0⟩], []⟩ : Strip).pixels.getD 1 ⟨0, 0, 0, 0⟩ ≠
        ⟨0, 0, 0, 0⟩ := by
  exact ⟨rfl, rfl, by decide⟩

/-- **C2** (amended): on cancellation, the `flow` and `chase` handlers
always set every pixel to `(0, 0, 0, 0)` — unconditionally — and, whenever
the strip has at least one pixel, flush the cleared buffer; the
`colorLoop`/`breathe` handler (`turnOff`, with `fadeSpeed ≥ 1` and an
integer read-back) clears and flushes provided pixel 0's decomposed color
has at least one strictly positive channel — if pixel 0 reads back as black
the fade loop never runs and the rest of the buffer is left untouched. -/
theorem interrupt_handlers_clear (s : Strip) (f : Int) (hf : 1 ≤ f) :
    ((interruptClear s).pixels = List.replicate s.numPixels ⟨0, 0, 0, 0⟩ ∧
      (1 ≤ s.numPixels →
        (interruptClear s).shown = (interruptClear s).pixels)) ∧
    ((0 < (getRgbFromColor (s.getPixelColor 0)).1 ∨
        0 < (getRgbFromColor (s.getPixelColor 0)).2.1 ∨
        0 < (getRgbFromColor (s.getPixelColor 0)).2.2) →
      ∃ s', colorLoopHandler f s = .ok (some s') ∧
        s'.pixels = List.replicate s.numPixels ⟨0, 0, 0, 0⟩ ∧
        s'.shown = s'.pixels) := by
  refine ⟨interruptClear_spec s, fun hpos => ?_⟩
  obtain ⟨⟨h1a, h1b⟩, ⟨h2a, h2b⟩, ⟨h3a, h3b⟩⟩ :=
    getRgbFromColor_bounds (s.getPixelColor 0)
  obtain ⟨s', hl, hp, hs⟩ := turnOffLoop_clears 256 f
    (getRgbFromColor (s.getPixelColor 0)).1
    (getRgbFromColor (s.getPixelColor 0)).2.1
    (getRgbFromColor (s.getPixelColor 0)).2.2 s hf
    (by push_cast; omega) (by push_cast; omega) (by push_cast; omega)
    ((turnOffGuard_iff _ _ _).2 hpos)
  refine ⟨s', ?_, hp, hs⟩
  show Except.ok (turnOffLoop f (getRgbFromColor (s.getPixelColor 0)).1
    (getRgbFromColor (s.getPixelColor 0)).2.1
    (getRgbFromColor (s.getPixelColor 0)).2.2 s 256) = _
  rw [hl]

/-- Closed instance discharging the hypothesis of
`interrupt_handlers_clear` on a one-pixel strip showing `(9, 0, 0, 0)` with
`fadeSpeed = 7` (whose pixel 0 also exercises both inner implications). -/
theorem interrupt_handlers_clear_witness :
    1 ≤ (7 : Int) ∧
      (((interruptClear ⟨[⟨9, 0, 0, 0⟩], []⟩).pixels =
          List.replicate (Strip.numPixels ⟨[⟨9, 0, 0, 0⟩], []⟩) ⟨0, 0, 0, 0⟩ ∧
        (1 ≤ Strip.numPixels ⟨[⟨9, 0, 0, 0⟩], []⟩ →
          (interruptClear ⟨[⟨9, 0, 0, 0⟩], []⟩).shown =
            (interruptClear ⟨[⟨9, 0, 0, 0⟩], []⟩).pixels)) ∧
      ((0 < (getRgbFromColor (Strip.getPixelColor ⟨[⟨9, 0, 0, 0⟩], []⟩ 0)).1 ∨
          0 < (getRgbFromColor (Strip.getPixelColor ⟨[⟨9, 0, 0, 0⟩], []⟩ 0)).2.1 ∨
          0 < (getRgbFromColor (Strip.getPixelColor ⟨[⟨9, 0, 0, 0⟩], []⟩ 0)).2.2) →
        ∃ s', colorLoopHandler 7 ⟨[⟨9, 0, 0, 0⟩], []⟩ = .ok (some s') ∧
          s'.pixels = List.replicate (Strip.numPixels ⟨[⟨9, 0, 0, 0⟩], []⟩)
            ⟨0, 0, 0, 0⟩ ∧
          s'.shown = s'.pixels)) :=
  ⟨by decide, interrupt_handlers_clear ⟨[⟨9, 0, 0, 0⟩], []⟩ 7 (by decide)⟩

lemma buildOrder_foldl (rep : Nat) :
    ∀ (colorOrder : List Color) (acc : List (Int × Int × Int)),
      colorOrder.foldl (fun acc c => acc ++ List.replicate rep c.value) acc =
        acc ++ colorOrder.flatMap (fun c => List.replicate rep c.value) := by
  intro colorOrder
  induction colorOrder with
  | nil => intro acc; simp
  | cons c t ih =>
      intro acc
      simp only [List.foldl_cons, List.flatMap_cons]
      rw [ih, List.append_assoc]

lemma buildOrder_eq_flatMap (colorOrder : List Color) (rep : Nat) :
    buildOrder colorOrder rep =
      colorOrder.flatMap (fun c => List.replicate rep c.value) := by
  unfold buildOrder
  rw [buildOrder_foldl]
  rfl

lemma buildOrder_length (colorOrder : List Color) (rep : Nat) :
    (buildOrder colorOrder rep).length = colorOrder.length * rep := by
  rw [buildOrder_eq_flatMap]
  induction colorOrder with
  | nil => simp
  | cons c t ih =>
      simp only [List.flatMap_cons, List.length_append, List.length_replicate,
        List.length_cons, ih]
      ring

lemma chaseShift_cons :
    ∀ (k : Nat) (a : Int × Int × Int) (t : List (Int × Int × Int)),
      chaseShift (a :: t) (k + 1) = a :: (chaseShift t k).set 0 a := by
  intro k
  induction k with
  | zero =>
      intro a t
      cases t <;> rfl
  | succ k ih =>
      intro a t
      show chaseShift ((a :: t).set (k + 2) ((a :: t).getD (k + 1) (0, 0, 0)))
        (k + 1) = _
      rw [List.set_cons_succ, List.getD_cons_succ]
      exact ih a (t.set (k + 1) (t.getD k (0, 0, 0)))

lemma chaseShift_spec :
    ∀ (l : List (Int × Int × Int)), l ≠ [] →
      chaseShift l (l.length - 1) = l.headD (0, 0, 0) :: l.dropLast := by
  intro l
  induction l with
  | nil => intro h; exact absurd rfl h
  | cons a t ih =>
      intro _
      cases t with
      | nil => rfl
      | cons b t' =>
          have hlen : (a :: b :: t').length - 1 = ((b :: t').length - 1) + 1 := by
            simp
          rw [hlen, chaseShift_cons, ih (by simp)]
          simp

lemma chaseRotate_of_length_gt_one {l : List (Int × Int × Int)}
    (h : l.length > 1) :
    chaseRotate l = l.getLastD (0, 0, 0) :: l.dropLast := by
  unfold chaseRotate
  rw [if_pos h, chaseShift_spec l (by intro hc; rw [hc] at h; simp at h)]
  rw [List.set_cons_zero]

lemma chaseRotate_of_length_one {l : List (Int × Int × Int)}
    (h : l.length = 1) : chaseRotate l = l := by
  unfold chaseRotate
  rw [if_neg (by omega)]

/-- **C7**: `chase` expands `colorOrder` into `order` with each color
repeated `repeat` times (so `len(order) = len(colorOrder) * repeat`), and its
end-of-sweep rotation moves the last element to the front
(`order' = [order[-1]] ++ order[0 .. len-2]`) when `len(order) > 1`, and is
the identity on a length-1 `order`. -/
theorem chase_order_rotation (colorOrder : List Color) (rep : Nat)
    (_h1 : colorOrder ≠ []) (_h2 : 1 ≤ rep) :
    (buildOrder colorOrder rep).length = colorOrder.length * rep ∧
      ((buildOrder colorOrder rep).length > 1 →
        chaseRotate (buildOrder colorOrder rep) =
          (buildOrder colorOrder rep).getLastD (0, 0, 0) ::
            (buildOrder colorOrder rep).dropLast) ∧
      ((buildOrder colorOrder rep).length = 1 →
        chaseRotate (buildOrder colorOrder rep) = buildOrder colorOrder rep) := by
  exact ⟨buildOrder_length colorOrder rep,
    fun h => chaseRotate_of_length_gt_one h,
    fun h => chaseRotate_of_length_one h⟩

/-- Closed instance discharging the hypotheses of `chase_order_rotation` at
`colorOrder = [RED, GREEN]`, `repeat = 2` (the spec's 4-pixel example). -/
theorem chase_order_rotation_witness :
    [Color.RED, Color.GREEN] ≠ [] ∧ 1 ≤ 2 ∧
      ((buildOrder [Color.RED, Color.GREEN] 2).length =
          [Color.RED, Color.GREEN].length * 2 ∧
        ((buildOrder [Color.RED, Color.GREEN] 2).length > 1 →
          chaseRotate (buildOrder [Color.RED, Color.GREEN] 2) =
            (buildOrder [Color.RED, Color.GREEN] 2).getLastD (0, 0, 0) ::
              (buildOrder [Color.RED, Color.GREEN] 2).dropLast) ∧
        ((buildOrder [Color.RED, Color.GREEN] 2).length = 1 →
          chaseRotate (buildOrder [Color.RED, Color.GREEN] 2) =
            buildOrder [Color.RED, Color.GREEN] 2)) :=
  ⟨by decide, by decide,
    chase_order_rotation [Color.RED, Color.GREEN] 2 (by decide) (by decide)⟩

lemma clampChannel_of_mem {v : Int} (h0 : 0 ≤ v) (h255 : v ≤ 255) :
    clampChannel v = v := by
  unfold clampChannel
  rw [if_neg (by omega), if_neg (by omega)]

lemma color_value_bounds (c : Color) :
    (0 ≤ c.value.1 ∧ c.value.1 ≤ 255) ∧
      (0 ≤ c.value.2.1 ∧ c.value.2.1 ≤ 255) ∧
      (0 ≤ c.value.2.2 ∧ c.value.2.2 ≤ 255) := by
  cases c <;> decide

lemma buildOrder_mem_bounds {colorOrder : List Color} {rep : Nat}
    {v : Int × Int × Int} (h : v ∈ buildOrder colorOrder rep) :
    (0 ≤ v.1 ∧ v.1 ≤ 255) ∧ (0 ≤ v.2.1 ∧ v.2.1 ≤ 255) ∧
      (0 ≤ v.2.2 ∧ v.2.2 ≤ 255) := by
  rw [buildOrder_eq_flatMap, List.mem_flatMap] at h
  obtain ⟨c, -, hv⟩ := h
  rw [List.eq_of_mem_replicate hv]
  exact color_value_bounds c

lemma range_getLastD {n : Nat} (h : 1 ≤ n) :
    (List.range n).getLastD 0 = n - 1 := by
  obtain ⟨m, rfl⟩ : ∃ m, n = m + 1 := ⟨n - 1, by omega⟩
  rw [List.range_succ, List.getLastD_concat]
  simp

lemma foldl_setShow_same (i : Nat) (v1 v2 v3 : Nat → Int) :
    ∀ (js : List Nat) (s : Strip), js ≠ [] →
      ((js.foldl (fun acc j =>
          (setLedColor acc i (v1 j) (v2 j) (v3 j) 0).showStrip) s).pixels =
        s.pixels.set i (setLedColorValue (v1 (js.getLastD 0))
          (v2 (js.getLastD 0)) (v3 (js.getLastD 0)) 0)) ∧
      ((js.foldl (fun acc j =>
          (setLedColor acc i (v1 j) (v2 j) (v3 j) 0).showStrip) s).shown =
        (js.foldl (fun acc j =>
          (setLedColor acc i (v1 j) (v2 j) (v3 j) 0).showStrip) s).pixels) := by
  intro js
  induction js with
  | nil => intro s h; exact absurd rfl h
  | cons j t ih =>
      intro s _
      cases t with
      | nil => exact ⟨rfl, rfl⟩
      | cons j2 t' =>
          have h := ih ((setLedColor s i (v1 j) (v2 j) (v3 j) 0).showStrip)
            (by simp)
          have hlast : (j :: j2 :: t').getLastD 0 = (j2 :: t').getLastD 0 :=
            getLastD_irrel (j2 :: t') (by simp) j 0
          refine ⟨?_, ?_⟩
          · simp only [List.foldl_cons] at h ⊢
            rw [h.1]
            have hs1 : ((setLedColor s i (v1 j) (v2 j) (v3 j) 0).showStrip).pixels =
                s.pixels.set i (setLedColorValue (v1 j) (v2 j) (v3 j) 0) := rfl
            rw [hs1, List.set_set, hlast]
          · simp only [List.foldl_cons] at h ⊢
            exact h.2

lemma chaseInner_pixels (order : List (Int × Int × Int)) (ho : order ≠ [])
    (s : Strip) (i : Nat) :
    (chaseInner s order i).pixels = s.pixels.set i (chaseTarget order i) ∧
      (chaseInner s order i).shown = (chaseInner s order i).pixels := by
  have hlenpos : 1 ≤ order.length := by
    cases order with
    | nil => exact absurd rfl ho
    | cons c t => simp
  have hne : List.range order.length ≠ [] := by
    rw [ne_eq, List.range_eq_nil]
    omega
  have h := foldl_setShow_same i
    (fun j => (order.getD (i % (j + 1)) (0, 0, 0)).1)
    (fun j => (order.getD (i % (j + 1)) (0, 0, 0)).2.1)
    (fun j => (order.getD (i % (j + 1)) (0, 0, 0)).2.2)
    (List.range order.length) s hne
  have hlast : (List.range order.length).getLastD 0 = order.length - 1 :=
    range_getLastD hlenpos
  have hlen : order.length - 1 + 1 = order.length := by omega
  obtain ⟨h1, h2⟩ := h
  simp only [hlast, hlen] at h1
  exact ⟨h1, h2⟩

lemma foldl_set_indexed (tval : Nat → RGBW) :
    ∀ (k a : Nat) (l : List RGBW) (j : Nat),
      ((List.range' a k).foldl (fun t i => t.set i (tval i)) l).getD j
          ⟨0, 0, 0, 0⟩ =
        if a ≤ j ∧ j < a + k ∧ j < l.length then tval j
        else l.getD j ⟨0, 0, 0, 0⟩ := by
  intro k
  induction k with
  | zero =>
      intro a l j
      rw [if_neg (by omega)]
      rfl
  | succ k ih =>
      intro a l j
      rw [List.range'_succ]
      simp only [List.foldl_cons]
      rw [ih (a + 1) (l.set a (tval a)) j]
      simp only [List.length_set]
      by_cases hj : a = j
      · subst hj
        by_cases hlen : a < l.length
        · rw [if_neg (by omega), if_pos (by omega)]
          simp [List.getElem?_set_self hlen]
        · rw [if_neg (by omega), if_neg (by omega)]
          rw [List.set_eq_of_length_le (by omega)]
      · have hset : (l.set a (tval a)).getD j ⟨0, 0, 0, 0⟩ =
            l.getD j ⟨0, 0, 0, 0⟩ := by
          rw [List.getD_eq_getElem?_getD, List.getD_eq_getElem?_getD,
            List.getElem?_set_ne hj]
        by_cases hcond : a + 1 ≤ j ∧ j < a + 1 + k ∧ j < l.length
        · rw [if_pos hcond, if_pos (by omega)]
        · rw [if_neg hcond, hset, if_neg (by omega)]

lemma chaseSweep_fold (order : List (Int × Int × Int)) (ho : order ≠ []) :
    ∀ (is : List Nat) (s : Strip),
      ((is.foldl (fun acc i => chaseInner acc order i) s).pixels =
        is.foldl (fun t i => t.set i (chaseTarget order i)) s.pixels) ∧
      (is ≠ [] →
        (is.foldl (fun acc i => chaseInner acc order i) s).shown =
          (is.foldl (fun acc i => chaseInner acc order i) s).pixels) := by
  intro is
  induction is with
  | nil => intro s; exact ⟨rfl, fun h => absurd rfl h⟩
  | cons i t ih =>
      intro s
      cases t with
      | nil =>
          exact ⟨(chaseInner_pixels order ho s i).1,
            fun _ => (chaseInner_pixels order ho s i).2⟩
      | cons i2 t' =>
          have h := ih (chaseInner s order i)
          refine ⟨?_, fun _ => h.2 (by simp)⟩
          simp only [List.foldl_cons] at h ⊢
          rw [h.1, (chaseInner_pixels order ho s i).1]

/-- **C10**: in a `chase` sweep with non-empty `colorOrder` and
`repeat ≥ 1`, the value pixel `i` holds when the sweep moves on — despite the
inner loop's `order[i % (j+1)]` indexing overwriting it `len(order)` times —
is `order[i % len(order)]` (its last inner write, `j = len(order) - 1`). -/
theorem chase_sweep_settles (colorOrder : List Color) (rep : Nat) (s : Strip)
    (i : Nat) (h1 : colorOrder ≠ []) (h2 : 1 ≤ rep) (hi : i < s.numPixels) :
    (chaseSweep s (buildOrder colorOrder rep)).pixels.getD i ⟨0, 0, 0, 0⟩ =
      ⟨((buildOrder colorOrder rep).getD
          (i % (buildOrder colorOrder rep).length) (0, 0, 0)).1,
        ((buildOrder colorOrder rep).getD
          (i % (buildOrder colorOrder rep).length) (0, 0, 0)).2.1,
        ((buildOrder colorOrder rep).getD
          (i % (buildOrder colorOrder rep).length) (0, 0, 0)).2.2, 0⟩ := by
  have hpos : 0 < (buildOrder colorOrder rep).length := by
    rw [buildOrder_length]
    apply Nat.mul_pos
    · cases colorOrder with
      | nil => exact absurd rfl h1
      | cons c t => simp
    · omega
  have ho : buildOrder colorOrder rep ≠ [] := by
    intro h
    rw [h] at hpos
    simp at hpos
  have hfold := (chaseSweep_fold (buildOrder colorOrder rep) ho
    (List.range s.numPixels) s).1
  have hpl : s.numPixels = s.pixels.length := rfl
  have hgoal : (chaseSweep s (buildOrder colorOrder rep)).pixels.getD i
      ⟨0, 0, 0, 0⟩ = chaseTarget (buildOrder colorOrder rep) i := by
    rw [show (chaseSweep s (buildOrder colorOrder rep)).pixels =
      (List.range s.numPixels).foldl
        (fun t i => t.set i (chaseTarget (buildOrder colorOrder rep) i))
        s.pixels from hfold]
    rw [List.range_eq_range',
      foldl_set_indexed (chaseTarget (buildOrder colorOrder rep))
        s.numPixels 0 s.pixels i]
    rw [if_pos ⟨Nat.zero_le i, by omega, by omega⟩]
  rw [hgoal]
  have hlt : i % (buildOrder colorOrder rep).length <
      (buildOrder colorOrder rep).length := Nat.mod_lt _ hpos
  have hmem : (buildOrder colorOrder rep).getD
      (i % (buildOrder colorOrder rep).length) (0, 0, 0) ∈
      buildOrder colorOrder rep := by
    rw [List.getD_eq_getElem _ _ hlt]
    exact List.getElem_mem hlt
  obtain ⟨⟨ha1, ha2⟩, ⟨hb1, hb2⟩, ⟨hc1, hc2⟩⟩ := buildOrder_mem_bounds hmem
  show setLedColorValue _ _ _ 0 = _
  unfold setLedColorValue
  rw [clampChannel_of_mem ha1 ha2, clampChannel_of_mem hb1 hb2,
    clampChannel_of_mem hc1 hc2]

/-- Closed instance discharging the hypotheses of `chase_sweep_settles` on a
4-pixel strip with `colorOrder = [RED, GREEN]`, `repeat = 2`, pixel 2. -/
theorem chase_sweep_settles_witness :
    [Color.RED, Color.GREEN] ≠ [] ∧ 1 ≤ 2 ∧
      2 < Strip.numPixels
        ⟨[⟨0, 0, 0, 0⟩, ⟨0, 0, 0, 0⟩, ⟨0, 0, 0, 0⟩, ⟨0, 0, 0, 0⟩], []⟩ ∧
      (chaseSweep ⟨[⟨0, 0, 0, 0⟩, ⟨0, 0, 0, 0⟩, ⟨0, 0, 0, 0⟩, ⟨0, 0, 0, 0⟩], []⟩
          (buildOrder [Color.RED, Color.GREEN] 2)).pixels.getD 2 ⟨0, 0, 0, 0⟩ =
        ⟨((buildOrder [Color.RED, Color.GREEN] 2).getD
            (2 % (buildOrder [Color.RED, Color.GREEN] 2).length) (0, 0, 0)).1,
          ((buildOrder [Color.RED, Color.GREEN] 2).getD
            (2 % (buildOrder [Color.RED, Color.GREEN] 2).length) (0, 0, 0)).2.1,
          ((buildOrder [Color.RED, Color.GREEN] 2).getD
            (2 % (buildOrder [Color.RED, Color.GREEN] 2).length) (0, 0, 0)).2.2,
          0⟩ :=
  ⟨by decide, by decide, by decide,
    chase_sweep_settles [Color.RED, Color.GREEN] 2
      ⟨[⟨0, 0, 0, 0⟩, ⟨0, 0, 0, 0⟩, ⟨0, 0, 0, 0⟩, ⟨0, 0, 0, 0⟩], []⟩ 2
      (by decide) (by decide) (by decide)⟩

lemma transitionEffectRun_eq_none (colors : List (Int × Int × Int))
    (effectSpeed brightness : Nat) :
    ∀ (fuel : Nat) (s : Strip),
      transitionEffectRun colors effectSpeed brightness s fuel = none := by
  intro fuel
  induction fuel with
  | zero => intro s; rfl
  | succ n ih =>
      intro s
      exact ih (transitionEffectPass s colors effectSpeed brightness)

/-- **C8**: `transitionEffect` never terminates normally (its `while True`
loop has no exit, so for any amount of fuel it exhausts it), its pass calls
`transition(colors[i], colors[(i+1) mod n])` for each `i` — the `if i+1 >=
len` branch is exactly the wrap-around index — and it has no cancellation
handler: a cancellation after `k` complete passes delivers the buffer in the
last-written intermediate color, not auto-cleared (witnessed concretely:
after one pass of `[RED, GREEN]` at speed 60 the pixel holds
`(127, 127, 0, 0)`, not black). -/
theorem transitionEffect_spec (colors : List (Int × Int × Int))
    (effectSpeed brightness : Nat) (s : Strip) (fuel : Nat) (i : Nat)
    (hi : i < colors.length) :
    transitionEffectRun colors effectSpeed brightness s fuel = none ∧
      ((if i + 1 ≥ colors.length then colors.getD 0 (0, 0, 0)
          else colors.getD (i + 1) (0, 0, 0)) =
        colors.getD ((i + 1) % colors.length) (0, 0, 0)) ∧
      (transitionEffectCancelState
          [((255 : Int), (0 : Int), (0 : Int)),
            ((0 : Int), (255 : Int), (0 : Int))] 60 120
          ⟨[⟨0, 0, 0, 0⟩], []⟩ 1).pixels.getD 0 ⟨0, 0, 0, 0⟩ ≠
        ⟨0, 0, 0, 0⟩ := by
  refine ⟨transitionEffectRun_eq_none colors effectSpeed brightness fuel s,
    ?_, by decide⟩
  by_cases h : i + 1 ≥ colors.length
  · have heq : i + 1 = colors.length := by omega
    rw [if_pos h, heq, Nat.mod_self]
  · rw [if_neg h, Nat.mod_eq_of_lt (by omega)]

/-- Closed instance discharging the hypothesis of `transitionEffect_spec` at
`colors = [RED, GREEN]`, `i = 1` (the wrap-around step). -/
theorem transitionEffect_spec_witness :
    1 < ([((255 : Int), (0 : Int), (0 : Int)),
        ((0 : Int), (255 : Int), (0 : Int))] : List (Int × Int × Int)).length ∧
      (transitionEffectRun
          [((255 : Int), (0 : Int), (0 : Int)), ((0 : Int), (255 : Int), (0 : Int))]
          60 120 ⟨[⟨0, 0, 0, 0⟩], []⟩ 2 = none ∧
        ((if 1 + 1 ≥ ([((255 : Int), (0 : Int), (0 : Int)),
              ((0 : Int), (255 : Int), (0 : Int))] : List (Int × Int × Int)).length
            then ([((255 : Int), (0 : Int), (0 : Int)),
              ((0 : Int), (255 : Int), (0 : Int))] : List (Int × Int × Int)).getD 0
              (0, 0, 0)
            else ([((255 : Int), (0 : Int), (0 : Int)),
              ((0 : Int), (255 : Int), (0 : Int))] : List (Int × Int × Int)).getD
              (1 + 1) (0, 0, 0)) =
          ([((255 : Int), (0 : Int), (0 : Int)),
            ((0 : Int), (255 : Int), (0 : Int))] : List (Int × Int × Int)).getD
            ((1 + 1) % ([((255 : Int), (0 : Int), (0 : Int)),
              ((0 : Int), (255 : Int), (0 : Int))] : List (Int × Int × Int)).length)
            (0, 0, 0)) ∧
        (transitionEffectCancelState
            [((255 : Int), (0 : Int), (0 : Int)),
              ((0 : Int), (255 : Int), (0 : Int))] 60 120
            ⟨[⟨0, 0, 0, 0⟩], []⟩ 1).pixels.getD 0 ⟨0, 0, 0, 0⟩ ≠
          ⟨0, 0, 0, 0⟩) :=
  ⟨by decide,
    transitionEffect_spec
      [((255 : Int), (0 : Int), (0 : Int)), ((0 : Int), (255 : Int), (0 : Int))]
      60 120 ⟨[⟨0, 0, 0, 0⟩], []⟩ 2 1 (by decide)⟩

end AddrLED
